import Mathlib

/-!
Shallow embedding of `src/main.py` (a Telegram movie bot built on aiogram 3,
asyncpg/PostgreSQL and APScheduler).  Pure data is modelled directly; the
PostgreSQL store is a record of row lists plus the set of tables created so
far (a query against an absent table returns an `undefinedTable` error, as
asyncpg raises `UndefinedTableError`); each aiogram handler becomes a function
from its inputs and the current store / FSM state to a result record holding
the new store, the new FSM state, the outbound actions (answers, videos,
callback acknowledgements, scheduled jobs, log lines) and the escaping
exception, if any.  Outbound keyboards (`movie_buttons`) carry no state and no
claim concerns them, so actions record only textual payloads.
-/

set_option maxRecDepth 4000

/-- Tables named in the SQL of `main.py`.  `init_db` (lines 42-91) creates the
first five; `messages` is referenced by `cmd_reviews` and `process_review` but
never created — kept here because those queries name it. -/
inductive TableName where
  | movie_files
  | favorites
  | reviews
  | reminders
  | ratings
  | messages
deriving DecidableEq, Repr

/-- Errors raised by the modelled store: a query naming a table that was never
created (asyncpg `UndefinedTableError`), or a NULL inserted into a NOT NULL
column (asyncpg `NotNullViolationError`). -/
inductive DBError where
  | undefinedTable (t : TableName)
  | notNullViolation
deriving DecidableEq, Repr

/-- A `datetime` restricted to the fields the bot parses and compares
(`YYYY-MM-DD HH:MM`); Python `datetime` comparison on these is lexicographic
on (year, month, day, hour, minute). -/
structure DT where
  year : Nat
  month : Nat
  day : Nat
  hour : Nat
  minute : Nat
deriving DecidableEq, Repr

/-- Python `datetime.__le__` as the lexicographic order on components. -/
def DT.le (a b : DT) : Bool :=
  decide (a.year < b.year) ||
    (a.year == b.year &&
      (decide (a.month < b.month) ||
        (a.month == b.month &&
          (decide (a.day < b.day) ||
            (a.day == b.day &&
              (decide (a.hour < b.hour) ||
                (a.hour == b.hour && decide (a.minute ≤ b.minute))))))))

/-- Row of `movie_files` (number UNIQUE NOT NULL, file_id NOT NULL). -/
structure MovieRow where
  number : Int
  file_id : String
deriving DecidableEq, Repr

/-- Row of `favorites` (UNIQUE(user_id, movie_id)). -/
structure FavRow where
  user_id : Int
  movie_id : Int
deriving DecidableEq, Repr

/-- Row of `reviews`; `created_at` records `CURRENT_TIMESTAMP` at insert. -/
structure ReviewRow where
  user_id : Int
  movie_id : Int
  text : String
  created_at : DT
deriving DecidableEq, Repr

/-- Row of `reminders`. -/
structure ReminderRow where
  user_id : Int
  movie_id : Int
  remind_time : DT
deriving DecidableEq, Repr

/-- Row of `ratings` (UNIQUE(user_id, movie_id), stars 1..5). -/
structure RatingRow where
  user_id : Int
  movie_id : Int
  stars : Int
deriving DecidableEq, Repr

/-- Row of the (never created) `messages` table as `process_review` writes it:
one row per user_id, holding the latest first_name / username / text. -/
structure MessageRow where
  user_id : Int
  first_name : Option String
  username : Option String
  text : String
deriving DecidableEq, Repr

/-- The PostgreSQL store: which tables exist, and the rows of each. -/
structure DB where
  created : List TableName
  movie_files : List MovieRow
  favorites : List FavRow
  reviews : List ReviewRow
  reminders : List ReminderRow
  ratings : List RatingRow
  messages : List MessageRow
deriving DecidableEq, Repr

/-- A query step fails when its target table was never created. -/
def requireTable (db : DB) (t : TableName) : Except DBError Unit :=
  if t ∈ db.created then Except.ok () else Except.error (DBError.undefinedTable t)

/-- aiogram FSM states of `main.py` lines 93-102; `idle` is aiogram's default
state `None` (no active conversation). -/
inductive ConvState where
  | idle
  | waiting_for_video
  | waiting_for_number
  | waiting_for_review
  | waiting_for_datetime
deriving DecidableEq, Repr

/-- Per-user aiogram FSM context: current state plus the two scratch keys the
bot stores with `update_data` (`video_file_id`, `movie_id`). -/
structure FSM where
  state : ConvState
  video_file_id : Option String
  movie_id : Option Int
deriving DecidableEq, Repr

/-- `state.clear()`: resets the state to `None` and empties the data dict. -/
def clearFSM : FSM := ⟨ConvState.idle, none, none⟩

/-- Outbound effects a handler performs, in order: `message.answer`,
`message.answer_video`, `callback.answer`, `callback.message.edit_caption`,
`scheduler.add_job`, `logger.error`. -/
inductive BotAction where
  | answer (text : String)
  | answerVideo (fileId : String) (caption : String)
  | cbAnswer (text : String)
  | editCaption (caption : String)
  | scheduleJob (userId : Int) (movieId : Int) (runDate : DT)
  | logError (tag : String)
deriving DecidableEq, Repr

/-- Result of a stateless handler (one that takes no `FSMContext`): the store
after the handler ran, the actions it performed, and the exception escaping it
(`none` when it returned normally). -/
structure HResult where
  db : DB
  actions : List BotAction
  err : Option DBError
deriving DecidableEq, Repr

/-- Result of a stateful handler (one taking `state: FSMContext`): as
`HResult` plus the user's FSM context after the handler ran. -/
structure SResult where
  db : DB
  fsm : FSM
  actions : List BotAction
  err : Option DBError
deriving DecidableEq, Repr

/-- Split a character list at every occurrence of `c` — `str.split(c)` /
`String.splitOn` for a one-character separator, written structurally. -/
def splitOnChar (c : Char) : List Char → List (List Char)
  | [] => [[]]
  | x :: xs =>
    let r := splitOnChar c xs
    if x == c then [] :: r
    else
      match r with
      | [] => [[x]]
      | h :: t => (x :: h) :: t

/-- Python `str.strip()`: drop whitespace from both ends. -/
def trimChars (l : List Char) : List Char :=
  ((l.dropWhile Char.isWhitespace).reverse.dropWhile Char.isWhitespace).reverse

/-- Numeric value of a digit string, `int(s)` on digits. -/
def digitsVal (l : List Char) : Nat :=
  l.foldl (fun acc c => acc * 10 + (c.toNat - 48)) 0

/-- Insertion into a sorted list by a boolean `le`, used to model `ORDER BY`. -/
def insertSortedBy (le : α → α → Bool) (a : α) : List α → List α
  | [] => [a]
  | x :: xs => if le a x then a :: x :: xs else x :: insertSortedBy le a xs

/-- Insertion sort by a boolean `le`, used to model `ORDER BY`. -/
def sortBy (le : α → α → Bool) (l : List α) : List α :=
  l.foldr (insertSortedBy le) []

/-- Ascending sort of integers (`ORDER BY number` / `ORDER BY movie_id`). -/
def sortInts (l : List Int) : List Int :=
  sortBy (fun a b => decide (a ≤ b)) l

/-- `SELECT AVG(stars) FROM ratings WHERE movie_id=$1`: `NULL` (`none`) when
the movie has no rating rows, otherwise the exact rational mean. -/
def avgStars (rs : List RatingRow) (m : Int) : Option ℚ :=
  if (rs.filter (fun r => r.movie_id == m)).isEmpty then none
  else
    some (((((rs.filter (fun r => r.movie_id == m)).map RatingRow.stars).sum : Int) : ℚ) /
      (((rs.filter (fun r => r.movie_id == m)).length : ℕ) : ℚ))

/-- Round a rational to an integer, ties to even — the rounding Python's
`format(x, '.1f')` applies to the scaled value. -/
def roundHalfEven (q : ℚ) : Int :=
  let fl : Int := ⌊q⌋
  let frac : ℚ := q - (fl : ℚ)
  if frac < 1 / 2 then fl
  else if 1 / 2 < frac then fl + 1
  else if fl % 2 = 0 then fl else fl + 1

/-- Python `f-string` `{x:.1f}`: the value rendered with exactly one decimal
digit, half-even rounding. -/
def format1f (q : ℚ) : String :=
  let n : Int := roundHalfEven (q * 10)
  let sign := if n < 0 then ("-") else ("")
  sign ++ toString (n.natAbs / 10) ++ (".") ++ toString (n.natAbs % 10)

/-- Left-pad to two digits (`strftime` `%m`/`%d`/`%H`/`%M`). -/
def pad2 (n : Nat) : String :=
  if n < 10 then ("0") ++ toString n else toString n

/-- Left-pad to four digits (`strftime` `%Y`). -/
def pad4 (n : Nat) : String :=
  if n < 10 then ("000") ++ toString n
  else if n < 100 then ("00") ++ toString n
  else if n < 1000 then ("0") ++ toString n
  else toString n

/-- `dt.strftime('%Y-%m-%d %H:%M')`. -/
def DT.format (d : DT) : String :=
  pad4 d.year ++ ("-") ++ pad2 d.month ++ ("-") ++ pad2 d.day ++ (" ") ++
    pad2 d.hour ++ (":") ++ pad2 d.minute

/-- Gregorian leap year, as `datetime` validates it. -/
def isLeap (y : Nat) : Bool :=
  y % 4 == 0 && (y % 100 != 0 || y % 400 == 0)

/-- Days in a month, as `datetime` validates day-of-month. -/
def daysInMonth (y m : Nat) : Nat :=
  if m == 2 then (if isLeap y then 29 else 28)
  else if m == 4 || m == 6 || m == 9 || m == 11 then 30
  else 31

/-- One numeric `strptime` field: 1 to `maxLen` ASCII digits. -/
def parseNumField (l : List Char) (maxLen : Nat) : Option Nat :=
  if 1 ≤ l.length ∧ l.length ≤ maxLen ∧ l.all Char.isDigit then some (digitsVal l) else none

/-- `datetime.strptime(s, "%Y-%m-%d %H:%M")`: `%Y` is exactly four digits,
`%m`/`%d`/`%H`/`%M` one or two; the constructed `datetime` then validates the
calendar ranges.  Returns `none` where `strptime` raises `ValueError`.  (The
format's single space is modelled as exactly one space.) -/
def parseDT (s : String) : Option DT :=
  match splitOnChar (' ') s.data with
  | [datePart, timePart] =>
    match splitOnChar ('-') datePart, splitOnChar (':') timePart with
    | [ys, mos, ds], [hs, mins] =>
      match parseNumField ys 4, parseNumField mos 2, parseNumField ds 2,
          parseNumField hs 2, parseNumField mins 2 with
      | some y, some mo, some d, some h, some mi =>
        if ys.length = 4 ∧ 1 ≤ y ∧ 1 ≤ mo ∧ mo ≤ 12 ∧ 1 ≤ d ∧ d ≤ daysInMonth y mo ∧
            h ≤ 23 ∧ mi ≤ 59 then
          some ⟨y, mo, d, h, mi⟩
        else none
      | _, _, _, _, _ => none
    | _, _ => none
  | _ => none

/-- `INSERT INTO movie_files(number, file_id) VALUES($1,$2) ON CONFLICT
(number) DO UPDATE SET file_id = EXCLUDED.file_id` (lines 199-206). -/
def upsertMovie (ms : List MovieRow) (num : Int) (fid : String) : List MovieRow :=
  if ms.any (fun r => r.number == num) then
    ms.map (fun r => if r.number == num then { r with file_id := fid } else r)
  else ms ++ [⟨num, fid⟩]

/-- `INSERT INTO ratings(user_id, movie_id, stars) VALUES($1,$2,$3) ON
CONFLICT (user_id, movie_id) DO UPDATE SET stars = EXCLUDED.stars`
(lines 316-320). -/
def upsertRating (rs : List RatingRow) (u m s : Int) : List RatingRow :=
  if rs.any (fun r => r.user_id == u && r.movie_id == m) then
    rs.map (fun r =>
      if r.user_id == u && r.movie_id == m then { r with stars := s } else r)
  else rs ++ [⟨u, m, s⟩]

/-- `CREATE TABLE IF NOT EXISTS`: record the table as created, idempotently. -/
def createIfAbsent (created : List TableName) (t : TableName) : List TableName :=
  if t ∈ created then created else created ++ [t]

/-- `init_db` (lines 42-91): create the five tables of the startup DDL. -/
def init_db (db : DB) : DB :=
  { db with
    created :=
      [TableName.movie_files, TableName.favorites, TableName.reviews,
        TableName.reminders, TableName.ratings].foldl createIfAbsent db.created }

/-- A store with no tables and no rows (a fresh database). -/
def emptyDB : DB := ⟨[], [], [], [], [], [], []⟩

/-- The store right after startup: `init_db` run on a fresh database. -/
def startupDB : DB := init_db emptyDB

/-- The five tables `init_db` creates. -/
def createdAtStartup : List TableName :=
  [TableName.movie_files, TableName.favorites, TableName.reviews,
    TableName.reminders, TableName.ratings]

/-- The two queries of `cmd_start` (lines 127-132): all movie numbers sorted,
and the user's favorite movie ids sorted. -/
def startQuery (uid : Int) (db : DB) : Except DBError (List Int × List Int) :=
  match requireTable db TableName.movie_files with
  | Except.error e => Except.error e
  | Except.ok _ =>
    match requireTable db TableName.favorites with
    | Except.error e => Except.error e
    | Except.ok _ =>
      Except.ok
        (sortInts (db.movie_files.map MovieRow.number),
          sortInts ((db.favorites.filter (fun f => f.user_id == uid)).map FavRow.movie_id))

/-- `/start` handler `cmd_start` (lines 125-144). -/
def cmd_start (uid : Int) (db : DB) : HResult :=
  match startQuery uid db with
  | Except.error e => ⟨db, [], some e⟩
  | Except.ok (rows, favs) =>
    let favActions :=
      if favs.isEmpty then []
      else
        [BotAction.answer
          (("💖 Sizning sevimlilaringiz:\n") ++
            String.intercalate ("\n") (favs.map (fun m => ("Kino #") ++ toString m)))]
    if rows.isEmpty then
      ⟨db, favActions ++ [BotAction.answer ("📭 Hozircha kinolar mavjud emas.")], none⟩
    else
      ⟨db, favActions ++ [BotAction.answer ("🎬 Kino tanlash uchun raqamini yozing:\n\n")], none⟩

/-- The caption `movie_select` builds (lines 154-156): `Kino #<num>`, plus a
rating line when `AVG(stars)` is non-NULL and non-zero (Python truthiness). -/
def movieCaption (num : Int) (avg : Option ℚ) : String :=
  let base := ("Kino #") ++ toString num
  match avg with
  | none => base
  | some q => if q = 0 then base else base ++ ("\n⭐ O'rtacha reyting: ") ++ format1f q

/-- Digit-text handler `movie_select` (lines 147-165): look the movie up by
number, compute the average rating, send the video with its caption or report
that no such movie exists. -/
def movie_select (num : Int) (db : DB) : HResult :=
  match requireTable db TableName.movie_files with
  | Except.error e => ⟨db, [], some e⟩
  | Except.ok _ =>
    match requireTable db TableName.ratings with
    | Except.error e => ⟨db, [], some e⟩
    | Except.ok _ =>
      let row := db.movie_files.find? (fun r => r.number == num)
      let caption := movieCaption num (avgStars db.ratings num)
      match row with
      | some r => ⟨db, [BotAction.answerVideo r.file_id caption], none⟩
      | none =>
        ⟨db, [BotAction.answer ("❌ Bunday kino topilmadi. /start ni bosing va ro‘yxatdan tanlang.")], none⟩

/-- `/admin` handler `cmd_admin` (lines 168-174). -/
def cmd_admin (adminIds : List Int) (uid : Int) (db : DB) (fsm : FSM) : SResult :=
  if uid ∉ adminIds then
    ⟨db, fsm,
      [BotAction.answer ("Reklama, hamkorlik va homiylik masalasida murojaat uchun admin:  @FuIIstackdeveIoper1")],
      none⟩
  else
    ⟨db, { fsm with state := ConvState.waiting_for_video },
      [BotAction.answer ("👮 Admin panelga xush kelibsiz.\n\n🎬 Iltimos, kino video faylini yuboring.")],
      none⟩

/-- `admin_receive_video` (lines 176-183): in `waiting_for_video`, reject a
message with no video, otherwise stash its file_id and advance. -/
def admin_receive_video (video : Option String) (db : DB) (fsm : FSM) : SResult :=
  match video with
  | none => ⟨db, fsm, [BotAction.answer ("❌ Iltimos, faqat video yuboring!")], none⟩
  | some fid =>
    ⟨db, { fsm with video_file_id := some fid, state := ConvState.waiting_for_number },
      [BotAction.answer ("✅ Video qabul qilindi.\nEndi unga raqam belgilang (masalan: +1, +2, +3):")],
      none⟩

/-- `admin_receive_number` (lines 185-208): in `waiting_for_number`, require a
`+<digits>` label; without a stashed video file_id report and clear; otherwise
upsert the movie row and clear. -/
def admin_receive_number (text : String) (db : DB) (fsm : FSM) : SResult :=
  let t := trimChars text.data
  if !(t.head? == some ('+') && !((t.drop 1).isEmpty) && (t.drop 1).all Char.isDigit) then
    ⟨db, fsm, [BotAction.answer ("❌ Iltimos, + bilan boshlanuvchi son yuboring. Masalan: +2")], none⟩
  else
    let num : Int := digitsVal (t.drop 1)
    match fsm.video_file_id with
    | none =>
      ⟨db, clearFSM, [BotAction.answer ("⚠️ Video topilmadi. /admin ni qaytadan boshlang.")], none⟩
    | some fid =>
      match requireTable db TableName.movie_files with
      | Except.error e => ⟨db, fsm, [], some e⟩
      | Except.ok _ =>
        ⟨{ db with movie_files := upsertMovie db.movie_files num fid }, clearFSM,
          [BotAction.answer (("✅ Kino muvaffaqiyatli saqlandi!\n➡️ Raqami: ") ++ toString num)],
          none⟩

/-- Left-joined row of the `cmd_reviews` query: the review plus the matching
`messages` row, if any. -/
def reviewsJoinRow (db : DB) (r : ReviewRow) : ReviewRow × Option MessageRow :=
  (r, db.messages.find? (fun u => u.user_id == r.user_id))

/-- The query of `cmd_reviews` (lines 219-225): reviews left-joined with
`messages` on user_id, newest first, limit 20.  Fails with `undefinedTable`
because the `messages` table is never created. -/
def reviewsQuery (db : DB) : Except DBError (List (ReviewRow × Option MessageRow)) :=
  match requireTable db TableName.reviews with
  | Except.error e => Except.error e
  | Except.ok _ =>
    match requireTable db TableName.messages with
    | Except.error e => Except.error e
    | Except.ok _ =>
      Except.ok
        (((sortBy (fun a b => DT.le b.created_at a.created_at) db.reviews).take 20).map
          (reviewsJoinRow db))

/-- One formatted block of the `/reviews` reply (lines 232-237). -/
def reviewBlock (p : ReviewRow × Option MessageRow) : String :=
  let fn : String :=
    match p.2 with
    | none => ("Foydalanuvchi")
    | some u =>
      match u.first_name with
      | none => ("Foydalanuvchi")
      | some s => if s.isEmpty then ("Foydalanuvchi") else s
  let userInfo :=
    match p.2 with
    | none => fn
    | some u =>
      match u.username with
      | none => fn
      | some un => if un.isEmpty then fn else fn ++ (" (@") ++ un ++ (")")
  ("👤 ") ++ userInfo ++ ("\n🎬 Kino #") ++ toString p.1.movie_id ++ ("\n💬 ") ++
    p.1.text ++ ("\n⏰ ") ++ DT.format p.1.created_at ++ ("\n\n")

/-- `/reviews` handler `cmd_reviews` (lines 212-239): admin-only; fetches the
last 20 reviews joined with `messages`.  No try/except surrounds the query, so
a store error escapes. -/
def cmd_reviews (adminIds : List Int) (uid : Int) (db : DB) : HResult :=
  if uid ∉ adminIds then
    ⟨db,
      [BotAction.answer ("Reklama, hamkorlik va homiylik masalasida murojaat uchun admin:  @FuIIstackdeveIoper1")],
      none⟩
  else
    match reviewsQuery db with
    | Except.error e => ⟨db, [], some e⟩
    | Except.ok rows =>
      if rows.isEmpty then
        ⟨db, [BotAction.answer ("📝 Hozircha sharhlar mavjud emas.")], none⟩
      else
        ⟨db,
          [BotAction.answer
            (rows.foldl (fun acc p => acc ++ reviewBlock p) ("📝 So'nggi 20 ta sharh:\n\n"))],
          none⟩

/-- `callback_fav` (lines 242-270): toggle a favorite — refuse when the movie
row is absent; delete the pair row when present; insert it otherwise. -/
def callback_fav (movieId uid : Int) (db : DB) : HResult :=
  match requireTable db TableName.movie_files with
  | Except.error e => ⟨db, [], some e⟩
  | Except.ok _ =>
    if !(db.movie_files.any (fun r => r.number == movieId)) then
      ⟨db, [BotAction.cbAnswer ("❌ Bu kino mavjud emas!")], none⟩
    else
      match requireTable db TableName.favorites with
      | Except.error e => ⟨db, [], some e⟩
      | Except.ok _ =>
        if db.favorites.any (fun f => f.user_id == uid && f.movie_id == movieId) then
          ⟨{ db with
              favorites :=
                db.favorites.filter (fun f => !(f.user_id == uid && f.movie_id == movieId)) },
            [BotAction.cbAnswer ("❌ Kino sevimlilardan olib tashlandi!")], none⟩
        else
          ⟨{ db with favorites := db.favorites ++ [⟨uid, movieId⟩] },
            [BotAction.cbAnswer ("💖 Kino sevimlilarga qo'shildi!")], none⟩

/-- `callback_review` (lines 274-280): stash the movie id and enter the
`waiting_for_review` state. -/
def callback_review (movieId : Int) (db : DB) (fsm : FSM) : SResult :=
  ⟨db, { fsm with movie_id := some movieId, state := ConvState.waiting_for_review },
    [BotAction.answer ("✍️ Fikringizni yozing:"), BotAction.cbAnswer ("")], none⟩

/-- `INSERT INTO reviews(user_id, movie_id, text) VALUES($1,$2,$3)`
(lines 288-291); `movie_id` is NOT NULL, so a missing scratch value fails. -/
def insertReview (db : DB) (uid : Int) (movie : Option Int) (txt : String) (now : DT) :
    Except DBError DB :=
  match requireTable db TableName.reviews with
  | Except.error e => Except.error e
  | Except.ok _ =>
    match movie with
    | none => Except.error DBError.notNullViolation
    | some m => Except.ok { db with reviews := db.reviews ++ [⟨uid, m, txt, now⟩] }

/-- `INSERT INTO messages(...) ON CONFLICT (user_id) DO UPDATE ...`
(lines 294-302); fails with `undefinedTable` since `messages` is never
created. -/
def upsertMessage (db : DB) (uid : Int) (fn un : Option String) (txt : String) :
    Except DBError DB :=
  match requireTable db TableName.messages with
  | Except.error e => Except.error e
  | Except.ok _ =>
    if db.messages.any (fun r => r.user_id == uid) then
      Except.ok
        { db with
          messages :=
            db.messages.map (fun r => if r.user_id == uid then ⟨uid, fn, un, txt⟩ else r) }
    else Except.ok { db with messages := db.messages ++ [⟨uid, fn, un, txt⟩] }

/-- `process_review` (lines 283-305): insert the review row, then upsert the
user's `messages` row; only then answer and clear the state.  An error in
either insert escapes, leaving the FSM untouched (the first insert's row
persists: asyncpg runs each statement in its own implicit transaction). -/
def process_review (uid : Int) (fn un : Option String) (txt : String) (now : DT)
    (db : DB) (fsm : FSM) : SResult :=
  match insertReview db uid fsm.movie_id txt now with
  | Except.error e => ⟨db, fsm, [], some e⟩
  | Except.ok db1 =>
    match upsertMessage db1 uid fn un txt with
    | Except.error e => ⟨db1, fsm, [], some e⟩
    | Except.ok db2 =>
      ⟨db2, clearFSM, [BotAction.answer ("✅ Fikringiz saqlandi va adminga yuborildi.")], none⟩

/-- `callback_rate` (lines 309-333): upsert the vote, recompute the average,
best-effort edit of the message caption, acknowledge with the new average. -/
def callback_rate (movieId stars uid : Int) (db : DB) : HResult :=
  match requireTable db TableName.ratings with
  | Except.error e => ⟨db, [], some e⟩
  | Except.ok _ =>
    let rs := upsertRating db.ratings uid movieId stars
    let avg : ℚ := (avgStars rs movieId).getD 0
    ⟨{ db with ratings := rs },
      [BotAction.editCaption
          (("Kino #") ++ toString movieId ++ ("\n⭐ O'rtacha reyting: ") ++ format1f avg),
        BotAction.cbAnswer
          (("⭐ Siz ") ++ toString stars ++ (" baho berdingiz! O'rtacha: ") ++ format1f avg)],
      none⟩

/-- `callback_remind` (lines 337-343): stash the movie id and enter the
`waiting_for_datetime` state. -/
def callback_remind (movieId : Int) (db : DB) (fsm : FSM) : SResult :=
  ⟨db, { fsm with movie_id := some movieId, state := ConvState.waiting_for_datetime },
    [BotAction.answer ("⏰ Kino ko'rish vaqti va sanasini yozing (YYYY-MM-DD HH:MM):"),
      BotAction.cbAnswer ("")], none⟩

/-- `INSERT INTO reminders(user_id, movie_id, remind_time) VALUES($1,$2,$3)`
(lines 362-365); `movie_id` is NOT NULL. -/
def insertReminder (db : DB) (uid : Int) (movie : Option Int) (dt : DT) :
    Except DBError DB :=
  match requireTable db TableName.reminders with
  | Except.error e => Except.error e
  | Except.ok _ =>
    match movie with
    | none => Except.error DBError.notNullViolation
    | some m => Except.ok { db with reminders := db.reminders ++ [⟨uid, m, dt⟩] }

/-- `process_reminder` (lines 346-376): parse `YYYY-MM-DD HH:MM`; reject a bad
format or a time not strictly in the future, keeping state and store; else
insert the reminder, schedule the job, answer and clear the state. -/
def process_reminder (uid : Int) (text : String) (now : DT) (db : DB) (fsm : FSM) :
    SResult :=
  match parseDT ⟨trimChars text.data⟩ with
  | none =>
    ⟨db, fsm, [BotAction.answer ("❌ Noto'g'ri format. Iltimos YYYY-MM-DD HH:MM formatda yuboring.")],
      none⟩
  | some dt =>
    if DT.le dt now then
      ⟨db, fsm, [BotAction.answer ("❌ Kechikkan vaqt! Iltimos, kelajakdagi vaqtni kiriting.")],
        none⟩
    else
      match insertReminder db uid fsm.movie_id dt with
      | Except.error e => ⟨db, fsm, [], some e⟩
      | Except.ok db1 =>
        ⟨db1, clearFSM,
          [BotAction.scheduleJob uid (fsm.movie_id.getD 0) dt,
            BotAction.answer
              (("✅ Eslatma o'rnatildi! ") ++ DT.format dt ++ (" da eslatib beraman."))],
          none⟩

/-- The query of `cmd_myfavorites` (lines 393-400): the user's favorites inner
joined with `movie_files` on movie_id = number, numbers ascending. -/
def myFavoritesQuery (uid : Int) (db : DB) : Except DBError (List Int) :=
  match requireTable db TableName.favorites with
  | Except.error e => Except.error e
  | Except.ok _ =>
    match requireTable db TableName.movie_files with
    | Except.error e => Except.error e
    | Except.ok _ =>
      Except.ok
        (sortInts
          ((db.favorites.filter (fun f => f.user_id == uid)).filterMap
            (fun f =>
              (db.movie_files.find? (fun m => m.number == f.movie_id)).map MovieRow.number)))

/-- Generic failure reply of the two guarded command handlers. -/
def genericFailureMsg : String := "❌ Xatolik yuz berdi. Iltimos, keyinroq urunib ko'ring."

/-- `/myfavorites` handler `cmd_myfavorites` (lines 389-410): the whole body
is wrapped in try/except — a store error is logged and answered with the
generic failure message, and nothing escapes. -/
def cmd_myfavorites (uid : Int) (db : DB) : HResult :=
  match myFavoritesQuery uid db with
  | Except.error _ =>
    ⟨db, [BotAction.logError ("cmd_myfavorites xatosi"), BotAction.answer genericFailureMsg], none⟩
  | Except.ok favs =>
    if favs.isEmpty then
      ⟨db, [BotAction.answer ("💔 Sizda hali sevimli kinolar yo'q.")], none⟩
    else
      ⟨db,
        [BotAction.answer
          (("💖 Sizning sevimli kinolaringiz:\n\n") ++
            String.intercalate ("\n")
              ((favs.enum.map (fun p => toString (p.1 + 1) ++ (". Kino #") ++ toString p.2))) ++
            ("\n\nKo'rish uchun kino raqamini yozing."))],
        none⟩

/-- The four count queries of `cmd_mystats` (lines 419-442), in source order:
favorites, reviews, ratings, reminders. -/
def myStatsQuery (uid : Int) (db : DB) : Except DBError (Nat × Nat × Nat × Nat) :=
  match requireTable db TableName.favorites with
  | Except.error e => Except.error e
  | Except.ok _ =>
    match requireTable db TableName.reviews with
    | Except.error e => Except.error e
    | Except.ok _ =>
      match requireTable db TableName.ratings with
      | Except.error e => Except.error e
      | Except.ok _ =>
        match requireTable db TableName.reminders with
        | Except.error e => Except.error e
        | Except.ok _ =>
          Except.ok
            ((db.favorites.filter (fun f => f.user_id == uid)).length,
              (db.reviews.filter (fun r => r.user_id == uid)).length,
              (db.ratings.filter (fun r => r.user_id == uid)).length,
              (db.reminders.filter (fun r => r.user_id == uid)).length)

/-- `/mystats` handler `cmd_mystats` (lines 414-455): wrapped in try/except
like `cmd_myfavorites`. -/
def cmd_mystats (uid : Int) (db : DB) : HResult :=
  match myStatsQuery uid db with
  | Except.error _ =>
    ⟨db, [BotAction.logError ("cmd_mystats xatosi"), BotAction.answer genericFailureMsg], none⟩
  | Except.ok (favC, revC, ratC, remC) =>
    ⟨db,
      [BotAction.answer
        (("📊 Sizning statistikangiz:\n\n💖 Sevimlilar: ") ++ toString favC ++
          ("\n✍️ Sharhlar: ") ++ toString revC ++ ("\n⭐ Reytinglar: ") ++ toString ratC ++
          ("\n⏰ Eslatmalar: ") ++ toString remC)],
      none⟩

/-- Fallback handler `unknown_message` (lines 459-461). -/
def unknown_message (db : DB) : HResult :=
  ⟨db, [BotAction.answer ("🤖 Noma'lum buyruq.\n/start ni bosing yoki kinoning raqamini yozing.")], none⟩

/-- The registered handlers of `main.py`, message and callback alike. -/
inductive Handler where
  | cmd_start
  | movie_select
  | cmd_admin
  | admin_receive_video
  | admin_receive_number
  | cmd_reviews
  | callback_fav
  | callback_review
  | process_review
  | callback_rate
  | callback_remind
  | process_reminder
  | send_reminder
  | cmd_myfavorites
  | cmd_mystats
  | unknown_message
deriving DecidableEq, Repr

/-- Tables each handler's SQL names (read off the query strings in
`main.py`).  `send_reminder` is the scheduler callback (lines 379-385). -/
def referencedTables : Handler → List TableName
  | Handler.cmd_start => [TableName.movie_files, TableName.favorites]
  | Handler.movie_select => [TableName.movie_files, TableName.ratings]
  | Handler.cmd_admin => []
  | Handler.admin_receive_video => []
  | Handler.admin_receive_number => [TableName.movie_files]
  | Handler.cmd_reviews => [TableName.reviews, TableName.messages]
  | Handler.callback_fav => [TableName.movie_files, TableName.favorites]
  | Handler.callback_review => []
  | Handler.process_review => [TableName.reviews, TableName.messages]
  | Handler.callback_rate => [TableName.ratings]
  | Handler.callback_remind => []
  | Handler.process_reminder => [TableName.reminders]
  | Handler.send_reminder => [TableName.movie_files]
  | Handler.cmd_myfavorites => [TableName.favorites, TableName.movie_files]
  | Handler.cmd_mystats =>
    [TableName.favorites, TableName.reviews, TableName.ratings, TableName.reminders]
  | Handler.unknown_message => []

/-- An incoming message update as the router sees it: the text, if any, and
the video file_id, if any. -/
structure Msg where
  text : Option String
  video : Option String
deriving DecidableEq, Repr

/-- aiogram `Command(c)` filter: the message text's first word is `/c`. -/
def isCommandMsg (msg : Msg) (c : String) : Bool :=
  match msg.text with
  | none => false
  | some t => ((splitOnChar (' ') t.data).headD []) == (('/') :: c.data)

/-- The filter `F.text.regexp(r"^\d+$")` of `movie_select`: the message has
text made of one or more digits. -/
def isAllDigitsMsg (msg : Msg) : Bool :=
  match msg.text with
  | none => false
  | some t => !t.data.isEmpty && t.data.all Char.isDigit

/-- aiogram 3 dispatch over the message handlers of `main.py`, in their
registration order (source order, lines 125-461): the first handler whose
filters pass receives the update.  A handler registered without `StateFilter`
matches in every FSM state. -/
def dispatch (msg : Msg) (st : ConvState) : Handler :=
  if isCommandMsg msg ("start") then Handler.cmd_start
  else if isAllDigitsMsg msg then Handler.movie_select
  else if isCommandMsg msg ("admin") then Handler.cmd_admin
  else if st == ConvState.waiting_for_video then Handler.admin_receive_video
  else if st == ConvState.waiting_for_number then Handler.admin_receive_number
  else if isCommandMsg msg ("reviews") then Handler.cmd_reviews
  else if st == ConvState.waiting_for_review then Handler.process_review
  else if st == ConvState.waiting_for_datetime then Handler.process_reminder
  else if isCommandMsg msg ("myfavorites") then Handler.cmd_myfavorites
  else if isCommandMsg msg ("mystats") then Handler.cmd_mystats
  else Handler.unknown_message

/-- One `rate_<movie>_<stars>` press by a user. -/
structure Vote where
  user : Int
  movie : Int
  stars : Int
deriving DecidableEq, Repr

/-- Run `callback_rate` once per vote, threading the store through. -/
def rateFold (votes : List Vote) (db : DB) : DB :=
  votes.foldl (fun d v => (callback_rate v.movie v.stars v.user d).db) db

/-- The most recent stars value a user sent for a movie across a vote
sequence, if any. -/
def lastVote (votes : List Vote) (u m : Int) : Option Int :=
  ((votes.filter (fun v => v.user == u && v.movie == m)).map Vote.stars).getLast?

/-- The distinct users who voted on a movie, in first-vote order. -/
def usersRated (votes : List Vote) (m : Int) : List Int :=
  ((votes.filter (fun v => v.movie == m)).map Vote.user).dedup

/-- Run the favorite toggle `n` times for one (movie, user) pair. -/
def toggleFavN (movieId uid : Int) : Nat → DB → DB
  | 0, db => db
  | n + 1, db => (callback_fav movieId uid (toggleFavN movieId uid n db)).db

/-- Number of `favorites` rows for a (user, movie) pair. -/
def favCount (db : DB) (u m : Int) : Nat :=
  (db.favorites.filter (fun f => f.user_id == u && f.movie_id == m)).length

/-- The effect of one `callback_rate` press on the `ratings` rows. -/
def applyVote (rs : List RatingRow) (v : Vote) : List RatingRow :=
  upsertRating rs v.user v.movie v.stars

/-- The `ratings` rows after a vote sequence on an initially empty table. -/
def ratingsAfter (votes : List Vote) : List RatingRow :=
  votes.foldl applyVote []

/-- The (user, movie) key of a ratings row. -/
def pairOf (r : RatingRow) : Int × Int :=
  (r.user_id, r.movie_id)

/-- Some vote in the sequence is by user `u` on movie `m`. -/
def votedPair (votes : List Vote) (u m : Int) : Prop :=
  ∃ v ∈ votes, v.user = u ∧ v.movie = m

/-! ## Router lemmas -/

theorem splitOnChar_ne_nil (c : Char) (l : List Char) : splitOnChar c l ≠ [] := by
  induction l with
  | nil => simp [splitOnChar]
  | cons x xs ih =>
    simp only [splitOnChar]
    by_cases hx : (x == c) = true
    · simp [hx]
    · simp only [hx, Bool.false_eq_true, if_false]
      cases h : splitOnChar c xs with
      | nil => exact absurd h ih
      | cons a as => simp

theorem splitOnChar_headD (c : Char) (l : List Char) :
    (splitOnChar c l).headD [] = l.takeWhile (fun x => x != c) := by
  induction l with
  | nil => rfl
  | cons x xs ih =>
    by_cases hx : (x == c) = true
    · have hx' : x = c := by simpa using hx
      simp [splitOnChar, hx, List.takeWhile_cons, hx']
    · cases h : splitOnChar c xs with
      | nil => exact absurd h (splitOnChar_ne_nil c xs)
      | cons a as =>
        have hne : (x != c) = true := by simpa [bne] using hx
        simp only [splitOnChar, hx, Bool.false_eq_true, if_false, h,
          List.takeWhile_cons, hne, if_true]
        rw [← ih, h]
        rfl

theorem digits_not_command (msg : Msg) (c : String)
    (hd : isAllDigitsMsg msg = true) : isCommandMsg msg c = false := by
  unfold isAllDigitsMsg at hd
  unfold isCommandMsg
  cases hmsg : msg.text with
  | none => rfl
  | some t =>
    rw [hmsg] at hd
    simp only [Bool.and_eq_true, Bool.not_eq_true'] at hd
    obtain ⟨hne, hall⟩ := hd
    show ((splitOnChar (' ') t.data).headD [] == (('/') :: c.data)) = false
    rw [splitOnChar_headD]
    cases ht : t.data with
    | nil => rw [ht] at hne; simp at hne
    | cons a rest =>
      have ha : a.isDigit = true := by
        rw [ht, List.all_cons, Bool.and_eq_true] at hall
        exact hall.1
      have hsp : (a != (' ')) = true := by
        by_cases h : a = (' ')
        · rw [h] at ha; exact absurd ha (by decide)
        · simpa [bne_iff_ne] using h
      simp only [List.takeWhile_cons, hsp, if_true]
      rw [beq_eq_false_iff_ne]
      intro heq
      have h1 : a = ('/') := (List.cons.injEq _ _ _ _ ▸ heq).1
      rw [h1] at ha
      exact absurd ha (by decide)

/-- C1 (corrected, counterexample): an all-digits text, here "5", sent while
the `waiting_for_review` state is active is dispatched to `movie_select`
(movie lookup by number), not to that state's handler `process_review` — the
digit handler is registered before every `StateFilter` handler. -/
theorem dispatch_digits_counterexample :
    dispatch ⟨some ("5"), none⟩ ConvState.waiting_for_review = Handler.movie_select ∧
    Handler.movie_select ≠ Handler.process_review := by
  decide

/-- C1 (corrected, amended): routing follows handler registration order, so
an all-digits text is always treated as a movie lookup, in every conversation
state; an active state's handler receives the update only when it is not
all-digits and not an earlier-registered command — `/start` and `/admin` for
the two admin states, plus `/reviews` for the review and reminder states. -/
theorem dispatch_state_routing :
    (∀ (msg : Msg) (st : ConvState), isAllDigitsMsg msg = true →
      dispatch msg st = Handler.movie_select) ∧
    (∀ msg : Msg, isCommandMsg msg ("start") = false → isAllDigitsMsg msg = false →
      isCommandMsg msg ("admin") = false →
      dispatch msg ConvState.waiting_for_video = Handler.admin_receive_video ∧
      dispatch msg ConvState.waiting_for_number = Handler.admin_receive_number ∧
      (isCommandMsg msg ("reviews") = false →
        dispatch msg ConvState.waiting_for_review = Handler.process_review ∧
        dispatch msg ConvState.waiting_for_datetime = Handler.process_reminder)) := by
  constructor
  · intro msg st hd
    unfold dispatch
    rw [digits_not_command msg ("start") hd, hd]
    rfl
  · intro msg h1 h2 h3
    refine ⟨?_, ?_, fun h4 => ⟨?_, ?_⟩⟩ <;>
      simp [dispatch, h1, h2, h3, *]

/-- C1 (corrected, witness): a non-digit, non-command text sent in the
`waiting_for_review` state does reach `process_review`; instantiates
`dispatch_state_routing`. -/
theorem dispatch_state_routing_witness :
    dispatch ⟨some ("juda yaxshi film"), none⟩ ConvState.waiting_for_review =
      Handler.process_review ∧
    dispatch ⟨some ("77"), none⟩ ConvState.waiting_for_datetime = Handler.movie_select :=
  ⟨((dispatch_state_routing.2 ⟨some ("juda yaxshi film"), none⟩ (by decide) (by decide)
      (by decide)).2.2 (by decide)).1,
    dispatch_state_routing.1 ⟨some ("77"), none⟩ ConvState.waiting_for_datetime (by decide)⟩

/-! ## Reminder rejection (C5) -/

/-- C5 (confirmed): in the `waiting_for_datetime` state, a text that parses
as `YYYY-MM-DD HH:MM` but is not strictly in the future is rejected with the
past-time error; no reminder row is inserted, no job is scheduled, and the
store and the FSM state are left exactly as they were. -/
theorem process_reminder_past_rejected (uid : Int) (text : String) (now dt : DT)
    (db : DB) (fsm : FSM)
    (hst : fsm.state = ConvState.waiting_for_datetime)
    (hp : parseDT ⟨trimChars text.data⟩ = some dt)
    (hpast : DT.le dt now = true) :
    process_reminder uid text now db fsm =
      ⟨db, fsm, [BotAction.answer ("❌ Kechikkan vaqt! Iltimos, kelajakdagi vaqtni kiriting.")],
        none⟩ := by
  unfold process_reminder
  rw [hp]
  simp [hpast]

/-- C5 (witness): the spec's scenario — `2025-01-01 00:00` sent when the
current time is 2025-06-01 12:00 is rejected and the state stays
`waiting_for_datetime`. -/
theorem process_reminder_past_rejected_witness :
    process_reminder 5 ("2025-01-01 00:00") ⟨2025, 6, 1, 12, 0⟩ startupDB
        ⟨ConvState.waiting_for_datetime, none, some 7⟩ =
      ⟨startupDB, ⟨ConvState.waiting_for_datetime, none, some 7⟩,
        [BotAction.answer ("❌ Kechikkan vaqt! Iltimos, kelajakdagi vaqtni kiriting.")],
        none⟩ :=
  process_reminder_past_rejected 5 ("2025-01-01 00:00") ⟨2025, 6, 1, 12, 0⟩
    ⟨2025, 1, 1, 0, 0⟩ startupDB ⟨ConvState.waiting_for_datetime, none, some 7⟩
    rfl (by decide) (by decide)

/-! ## Favorite toggle on a missing movie (C9) -/

/-- C9 (confirmed): pressing the favorite button for a movie number with no
`movie_files` row answers an error and leaves the whole store — in particular
the `favorites` table — unchanged. -/
theorem callback_fav_missing_movie (movieId uid : Int) (db : DB)
    (hcreated : TableName.movie_files ∈ db.created)
    (habsent : db.movie_files.any (fun r => r.number == movieId) = false) :
    callback_fav movieId uid db =
      ⟨db, [BotAction.cbAnswer ("❌ Bu kino mavjud emas!")], none⟩ := by
  unfold callback_fav requireTable
  simp [hcreated, habsent]

/-- C9 (witness): movie 9 does not exist right after startup, so the toggle
for it reports the error and changes nothing. -/
theorem callback_fav_missing_movie_witness :
    callback_fav 9 1 startupDB =
      ⟨startupDB, [BotAction.cbAnswer ("❌ Bu kino mavjud emas!")], none⟩ :=
  callback_fav_missing_movie 9 1 startupDB (by decide) (by decide)

/-! ## Admin number without a pending video (C10) -/

/-- C10 (confirmed): in the `waiting_for_number` state with no stashed video
file_id, a well-formed `+<digits>` label writes nothing to `movie_files` (the
store is untouched), clears the conversation state back to none, and answers
an error. -/
theorem admin_number_without_video (text : String) (db : DB) (fsm : FSM)
    (hst : fsm.state = ConvState.waiting_for_number)
    (hvid : fsm.video_file_id = none)
    (hplus : (trimChars text.data).head? = some ('+'))
    (hne : ((trimChars text.data).drop 1).isEmpty = false)
    (hdig : ((trimChars text.data).drop 1).all Char.isDigit = true) :
    admin_receive_number text db fsm =
      ⟨db, clearFSM, [BotAction.answer ("⚠️ Video topilmadi. /admin ni qaytadan boshlang.")],
        none⟩ := by
  have hne' : (trimChars text.data).tail ≠ [] := by
    rw [← List.drop_one]
    simpa using hne
  have hdig' : ∀ x ∈ (trimChars text.data).tail, x.isDigit = true := by
    rw [← List.drop_one]
    simpa [List.all_eq_true] using hdig
  unfold admin_receive_number
  simp [hplus, hvid, List.drop_one, hne']
  exact hdig'

/-- C10 (witness): the admin sends `+7` in `waiting_for_number` while the
scratch data has no video handle. -/
theorem admin_number_without_video_witness :
    admin_receive_number ("+7") startupDB ⟨ConvState.waiting_for_number, none, none⟩ =
      ⟨startupDB, clearFSM,
        [BotAction.answer ("⚠️ Video topilmadi. /admin ni qaytadan boshlang.")], none⟩ :=
  admin_number_without_video ("+7") startupDB ⟨ConvState.waiting_for_number, none, none⟩
    rfl rfl (by decide) (by decide) (by decide)

/-! ## The never-created messages table (C2, C3, C4) -/

/-- C2 (code_bug): a user in `waiting_for_review` submits a review on the
startup schema.  Exactly one row is appended to `reviews`, but the following
`INSERT INTO messages ... ON CONFLICT (user_id) ...` hits the never-created
`messages` table, the exception escapes, and `state.clear()` is never
reached: the FSM stays in `waiting_for_review` instead of returning to none,
and no confirmation is sent. -/
theorem process_review_missing_messages_eval :
    (process_review 5 (some ("Ann")) none ("zo'r kino") ⟨2025, 5, 1, 10, 0⟩ startupDB
        ⟨ConvState.waiting_for_review, none, some 7⟩).db.reviews =
      [⟨5, 7, ("zo'r kino"), ⟨2025, 5, 1, 10, 0⟩⟩] ∧
    (process_review 5 (some ("Ann")) none ("zo'r kino") ⟨2025, 5, 1, 10, 0⟩ startupDB
        ⟨ConvState.waiting_for_review, none, some 7⟩).fsm =
      ⟨ConvState.waiting_for_review, none, some 7⟩ ∧
    (process_review 5 (some ("Ann")) none ("zo'r kino") ⟨2025, 5, 1, 10, 0⟩ startupDB
        ⟨ConvState.waiting_for_review, none, some 7⟩).err =
      some (DBError.undefinedTable TableName.messages) := by
  decide

/-- C3 (code_bug): the claim that every table referenced by a handler's query
is among the five created at startup fails — `cmd_reviews` and
`process_review` both reference `messages`, which `init_db` never creates,
and running `/reviews` as an admin on the startup schema raises the
undefined-table error. -/
theorem referenced_tables_missing_eval :
    TableName.messages ∈ referencedTables Handler.cmd_reviews ∧
    TableName.messages ∈ referencedTables Handler.process_review ∧
    TableName.messages ∉ createdAtStartup ∧
    startupDB.created = createdAtStartup ∧
    (cmd_reviews [1] 1 startupDB).err = some (DBError.undefinedTable TableName.messages) := by
  decide

/-- C4 (corrected, counterexample): `cmd_reviews` is a command handler with
no try/except: on the startup schema its store query fails (the `messages`
table is absent), the exception escapes the handler, and no generic failure
message — indeed no reply at all — is sent. -/
theorem cmd_reviews_error_escapes :
    ((cmd_reviews [1] 1 startupDB).err).isSome = true ∧
    (cmd_reviews [1] 1 startupDB).actions = [] := by
  decide

/-- C4 (corrected, amended): only the `/myfavorites` and `/mystats` command
handlers catch unexpected store errors at the command boundary, log them and
answer the generic failure message, letting no exception escape; `/start` and
`/reviews` have no such boundary and let a store error escape with no reply
(`/admin` performs no store operation). -/
theorem command_boundary_amended :
    (∀ (uid : Int) (db : DB), (cmd_myfavorites uid db).err = none) ∧
    (∀ (uid : Int) (db : DB) (e : DBError), myFavoritesQuery uid db = Except.error e →
      (cmd_myfavorites uid db).actions =
        [BotAction.logError ("cmd_myfavorites xatosi"), BotAction.answer genericFailureMsg]) ∧
    (∀ (uid : Int) (db : DB), (cmd_mystats uid db).err = none) ∧
    (∀ (uid : Int) (db : DB) (e : DBError), myStatsQuery uid db = Except.error e →
      (cmd_mystats uid db).actions =
        [BotAction.logError ("cmd_mystats xatosi"), BotAction.answer genericFailureMsg]) ∧
    (∀ (adminIds : List Int) (uid : Int) (db : DB) (e : DBError), uid ∈ adminIds →
      reviewsQuery db = Except.error e →
      (cmd_reviews adminIds uid db).err = some e ∧
      (cmd_reviews adminIds uid db).actions = []) ∧
    (∀ (uid : Int) (db : DB) (e : DBError), startQuery uid db = Except.error e →
      (cmd_start uid db).err = some e ∧ (cmd_start uid db).actions = []) := by
  refine ⟨?_, ?_, ?_, ?_, ?_, ?_⟩
  · intro uid db
    unfold cmd_myfavorites
    cases h : myFavoritesQuery uid db with
    | error e => rfl
    | ok favs =>
      simp only []
      split <;> rfl
  · intro uid db e h
    unfold cmd_myfavorites
    rw [h]
  · intro uid db
    unfold cmd_mystats
    cases h : myStatsQuery uid db with
    | error e => rfl
    | ok c =>
      obtain ⟨a, b, c, d⟩ := c
      rfl
  · intro uid db e h
    unfold cmd_mystats
    rw [h]
  · intro adminIds uid db e huid h
    unfold cmd_reviews
    rw [if_neg (by simpa using huid), h]
    exact ⟨rfl, rfl⟩
  · intro uid db e h
    unfold cmd_start
    rw [h]
    exact ⟨rfl, rfl⟩

/-- C4 (corrected, witness): on a store with no tables, `/myfavorites` and
`/mystats` answer the generic failure with no escaping error, while
`/reviews` (run by admin 1 on the startup schema) and `/start` (on the empty
schema) let the store error escape. -/
theorem command_boundary_amended_witness :
    (cmd_myfavorites 1 emptyDB).err = none ∧
    (cmd_myfavorites 1 emptyDB).actions =
      [BotAction.logError ("cmd_myfavorites xatosi"), BotAction.answer genericFailureMsg] ∧
    (cmd_mystats 1 emptyDB).err = none ∧
    (cmd_mystats 1 emptyDB).actions =
      [BotAction.logError ("cmd_mystats xatosi"), BotAction.answer genericFailureMsg] ∧
    (cmd_reviews [1] 1 startupDB).err = some (DBError.undefinedTable TableName.messages) ∧
    (cmd_start 1 emptyDB).err = some (DBError.undefinedTable TableName.movie_files) :=
  ⟨command_boundary_amended.1 1 emptyDB,
    command_boundary_amended.2.1 1 emptyDB (DBError.undefinedTable TableName.favorites)
      rfl,
    command_boundary_amended.2.2.1 1 emptyDB,
    command_boundary_amended.2.2.2.1 1 emptyDB (DBError.undefinedTable TableName.favorites)
      rfl,
    (command_boundary_amended.2.2.2.2.1 [1] 1 startupDB
      (DBError.undefinedTable TableName.messages) (by decide) rfl).1,
    (command_boundary_amended.2.2.2.2.2 1 emptyDB
      (DBError.undefinedTable TableName.movie_files) rfl).1⟩

/-! ## Favorite toggle parity (C7) -/

theorem fav_any_false_iff_filter_nil (u m : Int) (favs : List FavRow) :
    (favs.any (fun f => f.user_id == u && f.movie_id == m) = false) ↔
      (favs.filter (fun f => f.user_id == u && f.movie_id == m) = []) := by
  rw [← Bool.not_eq_true, List.any_eq_true, List.filter_eq_nil]
  simp

theorem callback_fav_toggle_step (m u : Int) (db : DB)
    (h1 : TableName.movie_files ∈ db.created)
    (h2 : TableName.favorites ∈ db.created)
    (h3 : db.movie_files.any (fun r => r.number == m) = true) :
    (callback_fav m u db).db.created = db.created ∧
    (callback_fav m u db).db.movie_files = db.movie_files ∧
    favCount (callback_fav m u db).db u m = (if favCount db u m = 0 then 1 else 0) := by
  unfold callback_fav requireTable
  simp only [h1, if_true, h2, h3, Bool.not_true, Bool.false_eq_true, if_false]
  by_cases hany : db.favorites.any (fun f => f.user_id == u && f.movie_id == m) = true
  · simp only [hany, if_true]
    refine ⟨by trivial, by trivial, ?_⟩
    have hnz : favCount db u m ≠ 0 := by
      intro h0
      rw [favCount, List.length_eq_zero, ← fav_any_false_iff_filter_nil] at h0
      rw [h0] at hany
      exact Bool.false_ne_true hany
    rw [if_neg hnz]
    simp [favCount, List.filter_filter]
  · simp only [hany, Bool.false_eq_true, if_false]
    refine ⟨by trivial, by trivial, ?_⟩
    have hz : favCount db u m = 0 := by
      rw [favCount, List.length_eq_zero, ← fav_any_false_iff_filter_nil]
      exact Bool.not_eq_true _ ▸ hany
    rw [if_pos hz]
    rw [favCount] at hz ⊢
    rw [List.length_eq_zero] at hz
    simp [List.filter_append, hz]

/-- C7 (confirmed): for a movie that exists in `movie_files` and a pair that
starts absent from `favorites`, toggling the favorite an even number of times
leaves no row for the pair and an odd number of times leaves exactly one. -/
theorem favorite_toggle_parity (m u : Int) (db : DB) (n : Nat)
    (h1 : TableName.movie_files ∈ db.created)
    (h2 : TableName.favorites ∈ db.created)
    (h3 : db.movie_files.any (fun r => r.number == m) = true)
    (h0 : favCount db u m = 0) :
    favCount (toggleFavN m u n db) u m = if n % 2 = 0 then 0 else 1 := by
  have main : ∀ k : Nat,
      (toggleFavN m u k db).created = db.created ∧
      (toggleFavN m u k db).movie_files = db.movie_files ∧
      favCount (toggleFavN m u k db) u m = (if k % 2 = 0 then 0 else 1) := by
    intro k
    induction k with
    | zero => exact ⟨rfl, rfl, by simpa using h0⟩
    | succ j ih =>
      obtain ⟨ic, im, icnt⟩ := ih
      have step := callback_fav_toggle_step m u (toggleFavN m u j db)
        (by rw [ic]; exact h1) (by rw [ic]; exact h2) (by rw [im]; exact h3)
      refine ⟨step.1.trans ic, step.2.1.trans im, ?_⟩
      show favCount (callback_fav m u (toggleFavN m u j db)).db u m = _
      rw [step.2.2, icnt]
      rcases Nat.mod_two_eq_zero_or_one j with hj | hj <;> simp [hj, Nat.add_mod]
  exact (main n).2.2

/-- C7 (witness): with movie 7 stored and the pair (user 1, movie 7) absent,
two toggles leave no favorites row and three leave exactly one. -/
theorem favorite_toggle_parity_witness :
    favCount (toggleFavN 7 1 2 ⟨createdAtStartup, [⟨7, ("f7")⟩], [], [], [], [], []⟩) 1 7 = 0 ∧
    favCount (toggleFavN 7 1 3 ⟨createdAtStartup, [⟨7, ("f7")⟩], [], [], [], [], []⟩) 1 7 = 1 := by
  constructor
  · have h := favorite_toggle_parity 7 1 ⟨createdAtStartup, [⟨7, ("f7")⟩], [], [], [], [], []⟩ 2
      (by decide) (by decide) (by decide) (by decide)
    simpa using h
  · have h := favorite_toggle_parity 7 1 ⟨createdAtStartup, [⟨7, ("f7")⟩], [], [], [], [], []⟩ 3
      (by decide) (by decide) (by decide) (by decide)
    simpa using h

/-! ## Movie caption and rating line (C8) -/

theorem callback_rate_effect (m s u : Int) (db : DB)
    (h : TableName.ratings ∈ db.created) :
    (callback_rate m s u db).db = { db with ratings := upsertRating db.ratings u m s } := by
  unfold callback_rate requireTable
  simp [h]

theorem roundHalfEven_intCast (n : ℤ) : roundHalfEven ((n : ℚ)) = n := by
  unfold roundHalfEven
  norm_num

theorem format1f_four : format1f (4 : ℚ) = ("4.0") := by
  have h : roundHalfEven ((4 : ℚ) * 10) = 40 := by
    have h40 : ((4 : ℚ) * 10) = (((40 : ℤ) : ℚ)) := by norm_num
    rw [h40, roundHalfEven_intCast]
  unfold format1f
  rw [h]
  rfl

/-- C8 (confirmed): a stored movie `N` with no ratings rows is delivered with
caption exactly `Kino #N` and no rating line; after one user rates it 4
stars, the lookup caption carries the rating line with the average formatted
to one decimal, `⭐ O'rtacha reyting: 4.0`. -/
theorem movie_caption_rating_line (N : Int) (fid : String) (u : Int) (db : DB)
    (h1 : TableName.movie_files ∈ db.created)
    (h2 : TableName.ratings ∈ db.created)
    (hrow : db.movie_files.find? (fun r => r.number == N) = some ⟨N, fid⟩)
    (hnorat : db.ratings.filter (fun r => r.movie_id == N) = []) :
    movie_select N db =
      ⟨db, [BotAction.answerVideo fid (("Kino #") ++ toString N)], none⟩ ∧
    movie_select N ((callback_rate N 4 u db).db) =
      ⟨(callback_rate N 4 u db).db,
        [BotAction.answerVideo fid
          (("Kino #") ++ toString N ++ ("\n⭐ O'rtacha reyting: 4.0"))], none⟩ := by
  have hany : db.ratings.any (fun r => r.user_id == u && r.movie_id == N) = false := by
    rw [← Bool.not_eq_true, List.any_eq_true]
    rintro ⟨r, hr, hp⟩
    have hp2 : (r.movie_id == N) = true := by
      rw [Bool.and_eq_true] at hp
      exact hp.2
    have hmem : r ∈ db.ratings.filter (fun r => r.movie_id == N) := by
      rw [List.mem_filter]
      exact ⟨hr, hp2⟩
    rw [hnorat] at hmem
    exact absurd hmem (List.not_mem_nil r)
  have hup : upsertRating db.ratings u N 4 = db.ratings ++ [⟨u, N, 4⟩] := by
    unfold upsertRating
    rw [hany]
    simp
  have hdb' : (callback_rate N 4 u db).db = { db with ratings := db.ratings ++ [⟨u, N, 4⟩] } := by
    rw [callback_rate_effect N 4 u db h2, hup]
  have hfilter' : (db.ratings ++ [(⟨u, N, 4⟩ : RatingRow)]).filter (fun r => r.movie_id == N) =
      [⟨u, N, 4⟩] := by
    rw [List.filter_append, hnorat]
    simp
  have havg' : avgStars (db.ratings ++ [(⟨u, N, 4⟩ : RatingRow)]) N = some 4 := by
    unfold avgStars
    rw [hfilter']
    norm_num
  have hcap : movieCaption N (some ((4 : ℚ))) =
      ("Kino #") ++ toString N ++ ("\n⭐ O'rtacha reyting: 4.0") := by
    show (if (4 : ℚ) = 0 then ("Kino #") ++ toString N
        else ("Kino #") ++ toString N ++ ("\n⭐ O'rtacha reyting: ") ++ format1f 4) =
      ("Kino #") ++ toString N ++ ("\n⭐ O'rtacha reyting: 4.0")
    rw [if_neg (by norm_num), format1f_four, String.append_assoc]
    rfl
  constructor
  · unfold movie_select requireTable
    simp only [h1, h2, if_true, hrow]
    unfold movieCaption avgStars
    rw [hnorat]
    rfl
  · rw [hdb']
    unfold movie_select requireTable
    simp only [h1, h2, if_true, hrow, havg', hcap]

/-- C8 (witness): movie 7 stored as `file7` with no ratings; looked up before
and after user 2 rates it 4 stars. -/
theorem movie_caption_rating_line_witness :
    movie_select 7 (⟨createdAtStartup, [⟨7, ("file7")⟩], [], [], [], [], []⟩ : DB) =
      ⟨(⟨createdAtStartup, [⟨7, ("file7")⟩], [], [], [], [], []⟩ : DB),
        [BotAction.answerVideo ("file7") (("Kino #") ++ toString ((7 : Int)))], none⟩ ∧
    movie_select 7
        ((callback_rate 7 4 2 (⟨createdAtStartup, [⟨7, ("file7")⟩], [], [], [], [], []⟩ : DB)).db) =
      ⟨(callback_rate 7 4 2 (⟨createdAtStartup, [⟨7, ("file7")⟩], [], [], [], [], []⟩ : DB)).db,
        [BotAction.answerVideo ("file7")
          (("Kino #") ++ toString ((7 : Int)) ++ ("\n⭐ O'rtacha reyting: 4.0"))], none⟩ :=
  movie_caption_rating_line 7 ("file7") 2 (⟨createdAtStartup, [⟨7, ("file7")⟩], [], [], [], [], []⟩ : DB)
    (by decide) (by decide) rfl rfl

/-! ## Rating upsert and average (C6) -/

theorem ratingsAfter_append (votes : List Vote) (v : Vote) :
    ratingsAfter (votes ++ [v]) = applyVote (ratingsAfter votes) v := by
  unfold ratingsAfter
  rw [List.foldl_append]
  rfl

theorem lastVote_append (votes : List Vote) (v : Vote) (u m : Int) :
    lastVote (votes ++ [v]) u m =
      if (v.user == u && v.movie == m) = true then some v.stars else lastVote votes u m := by
  unfold lastVote
  rw [List.filter_append]
  by_cases h : (v.user == u && v.movie == m) = true
  · simp [h, List.getLast?_concat]
  · simp [h]

theorem votedPair_append (votes : List Vote) (v : Vote) (u m : Int) :
    votedPair (votes ++ [v]) u m ↔ votedPair votes u m ∨ (v.user = u ∧ v.movie = m) := by
  unfold votedPair
  constructor
  · rintro ⟨x, hx, hp⟩
    rcases List.mem_append.mp hx with h | h
    · exact Or.inl ⟨x, h, hp⟩
    · rw [List.mem_singleton] at h
      subst h
      exact Or.inr hp
  · rintro (⟨x, hx, hp⟩ | hp)
    · exact ⟨x, List.mem_append.mpr (Or.inl hx), hp⟩
    · exact ⟨v, List.mem_append.mpr (Or.inr (List.mem_singleton.mpr rfl)), hp⟩

theorem lastVote_isSome_iff (votes : List Vote) (u m : Int) :
    (lastVote votes u m).isSome = true ↔ votedPair votes u m := by
  unfold lastVote votedPair
  rw [List.getLast?_isSome, ne_eq, List.map_eq_nil_iff, List.filter_eq_nil_iff]
  push_neg
  simp [Bool.and_eq_true]

theorem any_pair_iff_mem_map (rs : List RatingRow) (u m : Int) :
    (rs.any (fun r => r.user_id == u && r.movie_id == m) = true) ↔
      (u, m) ∈ rs.map pairOf := by
  simp [List.any_eq_true, List.mem_map, pairOf, Prod.ext_iff, Bool.and_eq_true]

theorem mem_usersRated (votes : List Vote) (m a : Int) :
    a ∈ usersRated votes m ↔ votedPair votes a m := by
  unfold usersRated votedPair
  rw [List.mem_dedup, List.mem_map]
  constructor
  · rintro ⟨x, hx, rfl⟩
    rw [List.mem_filter] at hx
    exact ⟨x, hx.1, rfl, by simpa using hx.2⟩
  · rintro ⟨x, hx, hu, hm⟩
    exact ⟨x, List.mem_filter.mpr ⟨hx, by simpa using hm⟩, hu⟩

theorem rateFold_ratings (votes : List Vote) (db : DB)
    (h : TableName.ratings ∈ db.created) :
    (rateFold votes db).ratings = votes.foldl applyVote db.ratings ∧
    (rateFold votes db).created = db.created := by
  induction votes generalizing db with
  | nil => exact ⟨rfl, rfl⟩
  | cons v vs ih =>
    have he := callback_rate_effect v.movie v.stars v.user db h
    have hstep : rateFold (v :: vs) db =
        rateFold vs { db with ratings := upsertRating db.ratings v.user v.movie v.stars } := by
      unfold rateFold
      rw [List.foldl_cons, he]
    rw [hstep]
    obtain ⟨hr, hc⟩ := ih { db with ratings := upsertRating db.ratings v.user v.movie v.stars } h
    exact ⟨by rw [hr]; rfl, hc⟩

theorem ratingsAfter_inv (votes : List Vote) :
    (∀ r ∈ ratingsAfter votes, lastVote votes r.user_id r.movie_id = some r.stars) ∧
    ((ratingsAfter votes).map pairOf).Nodup ∧
    (∀ u m : Int, (u, m) ∈ (ratingsAfter votes).map pairOf ↔ votedPair votes u m) := by
  induction votes using List.reverseRecOn with
  | nil =>
    refine ⟨?_, ?_, ?_⟩ <;> simp [ratingsAfter, votedPair]
  | append_singleton vs v ih =>
    obtain ⟨ih1, ih2, ih3⟩ := ih
    rw [ratingsAfter_append]
    unfold applyVote upsertRating
    by_cases hmem :
      ((ratingsAfter vs).any (fun r => r.user_id == v.user && r.movie_id == v.movie)) = true
    · rw [if_pos hmem]
      have hpairs : (((ratingsAfter vs).map
          (fun r => if r.user_id == v.user && r.movie_id == v.movie
            then { r with stars := v.stars } else r)).map pairOf) =
          (ratingsAfter vs).map pairOf := by
        rw [List.map_map]
        apply List.map_congr_left
        intro r _
        by_cases hc : (r.user_id == v.user && r.movie_id == v.movie) = true
        · simp only [Function.comp_apply, hc, if_true]
          rfl
        · simp only [Function.comp_apply, hc, Bool.false_eq_true, if_false]
      refine ⟨?_, by rw [hpairs]; exact ih2, ?_⟩
      · intro r' hr'
        rw [List.mem_map] at hr'
        obtain ⟨r, hr, hfr⟩ := hr'
        by_cases hc : (r.user_id == v.user && r.movie_id == v.movie) = true
        · rw [if_pos hc] at hfr
          subst hfr
          rw [Bool.and_eq_true, beq_iff_eq, beq_iff_eq] at hc
          have hcond : ((v.user == r.user_id && v.movie == r.movie_id) = true) := by
            simp [hc.1, hc.2]
          rw [lastVote_append]
          show (if (v.user == r.user_id && v.movie == r.movie_id) = true
            then some v.stars else lastVote vs r.user_id r.movie_id) = some v.stars
          rw [if_pos hcond]
        · rw [if_neg hc] at hfr
          subst hfr
          have hcond : ¬((v.user == r.user_id && v.movie == r.movie_id) = true) := by
            intro hcc
            apply hc
            rw [Bool.and_eq_true, beq_iff_eq, beq_iff_eq] at hcc ⊢
            exact ⟨hcc.1.symm, hcc.2.symm⟩
          rw [lastVote_append, if_neg hcond]
          exact ih1 r hr
      · intro u m
        rw [hpairs, ih3 u m, votedPair_append]
        constructor
        · exact Or.inl
        · rintro (h | ⟨hu, hm⟩)
          · exact h
          · subst hu
            subst hm
            exact (ih3 v.user v.movie).mp ((any_pair_iff_mem_map _ _ _).mp hmem)
    · rw [if_neg hmem]
      have hnotin : (v.user, v.movie) ∉ (ratingsAfter vs).map pairOf := by
        rw [← any_pair_iff_mem_map]
        simpa using hmem
      refine ⟨?_, ?_, ?_⟩
      · intro r' hr'
        rcases List.mem_append.mp hr' with h | h
        · have hcond : ¬((v.user == r'.user_id && v.movie == r'.movie_id) = true) := by
            intro hcc
            apply hnotin
            rw [Bool.and_eq_true, beq_iff_eq, beq_iff_eq] at hcc
            rw [List.mem_map]
            exact ⟨r', h, by simp [pairOf, hcc.1, hcc.2]⟩
          rw [lastVote_append, if_neg hcond]
          exact ih1 r' h
        · rw [List.mem_singleton] at h
          subst h
          have hcond : ((v.user == (v.user : Int) && v.movie == (v.movie : Int)) = true) := by
            simp
          rw [lastVote_append]
          show (if (v.user == v.user && v.movie == v.movie) = true
            then some v.stars else lastVote vs v.user v.movie) = some v.stars
          rw [if_pos hcond]
      · rw [List.map_append]
        refine List.Nodup.append ih2 (by simp) ?_
        intro p hp hp2
        simp only [List.map_cons, List.map_nil, List.mem_singleton] at hp2
        rw [hp2] at hp
        exact hnotin hp
      · intro u m
        rw [List.map_append, List.mem_append, ih3 u m, votedPair_append]
        apply or_congr Iff.rfl
        simp [pairOf, Prod.ext_iff, eq_comm]

theorem filter_pair_eq_single (u m s : Int) (rs : List RatingRow)
    (hnd : (rs.map pairOf).Nodup) (hmem : (⟨u, m, s⟩ : RatingRow) ∈ rs)
    (hall : ∀ r ∈ rs, r.user_id = u → r.movie_id = m → r.stars = s) :
    rs.filter (fun r => r.user_id == u && r.movie_id == m) = [⟨u, m, s⟩] := by
  revert hnd hmem hall
  induction rs with
  | nil =>
    intro _ hmem _
    exact absurd hmem (List.not_mem_nil _)
  | cons x xs ih =>
    intro hnd hmem hall
    rw [List.map_cons, List.nodup_cons] at hnd
    by_cases hx : (x.user_id == u && x.movie_id == m) = true
    · have hxu : x.user_id = u ∧ x.movie_id = m := by
        rw [Bool.and_eq_true, beq_iff_eq, beq_iff_eq] at hx
        exact hx
      have hxs : x.stars = s := hall x (List.mem_cons_self _ _) hxu.1 hxu.2
      have hxeq : x = ⟨u, m, s⟩ := by
        obtain ⟨xu, xm, xs'⟩ := x
        simp_all
      have htail : xs.filter (fun r => r.user_id == u && r.movie_id == m) = [] := by
        rw [List.filter_eq_nil_iff]
        intro r hr hpr
        rw [Bool.and_eq_true, beq_iff_eq, beq_iff_eq] at hpr
        apply hnd.1
        rw [List.mem_map]
        exact ⟨r, hr, by simp [pairOf, hpr.1, hpr.2, hxu.1, hxu.2]⟩
      rw [List.filter_cons, if_pos hx, htail, hxeq]
    · have hxm : (⟨u, m, s⟩ : RatingRow) ∈ xs := by
        rcases List.mem_cons.mp hmem with h | h
        · exfalso
          apply hx
          rw [← h]
          simp
        · exact h
      rw [List.filter_cons, if_neg hx]
      exact ih hnd.2 hxm (fun r hr => hall r (List.mem_cons_of_mem _ hr))

/-- C6 (confirmed): starting from the startup store, after any sequence of
rate callbacks every (user, movie) pair with at least one vote has exactly
one `ratings` row, holding the most recent vote, and the store's average for
a movie equals the arithmetic mean of the latest votes of the distinct users
who rated it. -/
theorem ratings_upsert_latest_and_average (votes : List Vote) :
    (∀ u m s : Int, lastVote votes u m = some s →
      (rateFold votes startupDB).ratings.filter
        (fun r => r.user_id == u && r.movie_id == m) = [⟨u, m, s⟩]) ∧
    (∀ m : Int, usersRated votes m ≠ [] →
      avgStars (rateFold votes startupDB).ratings m =
        some (((((usersRated votes m).map
            (fun u => (lastVote votes u m).getD 0)).sum : ℤ) : ℚ) /
          (((usersRated votes m).length : ℕ) : ℚ))) := by
  have hfold : (rateFold votes startupDB).ratings = ratingsAfter votes :=
    (rateFold_ratings votes startupDB (by decide)).1
  obtain ⟨inv1, inv2, inv3⟩ := ratingsAfter_inv votes
  constructor
  · intro u m s hl
    rw [hfold]
    have hvp : votedPair votes u m := by
      rw [← lastVote_isSome_iff, hl]
      rfl
    have hpm : (u, m) ∈ (ratingsAfter votes).map pairOf := (inv3 u m).mpr hvp
    rw [List.mem_map] at hpm
    obtain ⟨r0, hr0, hp0⟩ := hpm
    have hu0 : r0.user_id = u := congrArg Prod.fst hp0
    have hm0 : r0.movie_id = m := congrArg Prod.snd hp0
    have hs0 : r0.stars = s := by
      have hlv := inv1 r0 hr0
      rw [hu0, hm0, hl] at hlv
      exact (Option.some_inj.mp hlv).symm
    have hmem : (⟨u, m, s⟩ : RatingRow) ∈ ratingsAfter votes := by
      have hre : r0 = ⟨u, m, s⟩ := by
        obtain ⟨ru, rm, rs'⟩ := r0
        simp_all
      rw [← hre]
      exact hr0
    have hall : ∀ r ∈ ratingsAfter votes, r.user_id = u → r.movie_id = m → r.stars = s := by
      intro r hr hru hrm
      have hlv := inv1 r hr
      rw [hru, hrm, hl] at hlv
      exact (Option.some_inj.mp hlv).symm
    exact filter_pair_eq_single u m s (ratingsAfter votes) inv2 hmem hall
  · intro m husers
    rw [hfold]
    have hLpairs : (((ratingsAfter votes).filter (fun r => r.movie_id == m)).map pairOf).Nodup :=
      ((List.filter_sublist (ratingsAfter votes)).map pairOf).nodup inv2
    have husermap : (((ratingsAfter votes).filter (fun r => r.movie_id == m)).map
        (fun r => r.user_id)).Nodup := by
      apply List.Nodup.of_map (fun a => ((a, m) : Int × Int))
      have hmapeq : (((ratingsAfter votes).filter (fun r => r.movie_id == m)).map
          (fun r => r.user_id)).map (fun a => ((a, m) : Int × Int)) =
          ((ratingsAfter votes).filter (fun r => r.movie_id == m)).map pairOf := by
        rw [List.map_map]
        apply List.map_congr_left
        intro r hr
        have hrm : r.movie_id = m := by
          have := (List.mem_filter.mp hr).2
          simpa using this
        simp [pairOf, hrm]
      rw [hmapeq]
      exact hLpairs
    have hmemiff : ∀ a : Int,
        a ∈ ((ratingsAfter votes).filter (fun r => r.movie_id == m)).map (fun r => r.user_id) ↔
        a ∈ usersRated votes m := by
      intro a
      rw [mem_usersRated, ← inv3 a m]
      constructor
      · intro ha
        rw [List.mem_map] at ha
        obtain ⟨r, hr, hra⟩ := ha
        rw [List.mem_filter] at hr
        rw [List.mem_map]
        refine ⟨r, hr.1, ?_⟩
        have hrm : r.movie_id = m := by simpa using hr.2
        rw [pairOf, hra, hrm]
      · intro ha
        rw [List.mem_map] at ha
        obtain ⟨r, hr, hra⟩ := ha
        rw [List.mem_map]
        have hru : r.user_id = a := congrArg Prod.fst hra
        have hrm : r.movie_id = m := congrArg Prod.snd hra
        refine ⟨r, ?_, hru⟩
        rw [List.mem_filter]
        exact ⟨hr, by simp [hrm]⟩
    have hperm : List.Perm
        (((ratingsAfter votes).filter (fun r => r.movie_id == m)).map (fun r => r.user_id))
        (usersRated votes m) := by
      refine (List.perm_ext_iff_of_nodup husermap ?_).mpr hmemiff
      unfold usersRated
      exact List.nodup_dedup _
    have hstars : ((ratingsAfter votes).filter (fun r => r.movie_id == m)).map RatingRow.stars =
        (((ratingsAfter votes).filter (fun r => r.movie_id == m)).map (fun r => r.user_id)).map
          (fun u => ((lastVote votes u m).getD 0 : Int)) := by
      rw [List.map_map]
      apply List.map_congr_left
      intro r hr
      rw [List.mem_filter] at hr
      have hrm : r.movie_id = m := by simpa using hr.2
      have hlv := inv1 r hr.1
      rw [hrm] at hlv
      show r.stars = (lastVote votes r.user_id m).getD 0
      rw [hlv]
      rfl
    have hsum : (((ratingsAfter votes).filter (fun r => r.movie_id == m)).map
        RatingRow.stars).sum =
        ((usersRated votes m).map (fun u => ((lastVote votes u m).getD 0 : Int))).sum := by
      rw [hstars]
      exact (hperm.map _).sum_eq
    have hlen : ((ratingsAfter votes).filter (fun r => r.movie_id == m)).length =
        (usersRated votes m).length := by
      rw [← List.length_map ((ratingsAfter votes).filter (fun r => r.movie_id == m))
        (fun r => r.user_id)]
      exact hperm.length_eq
    have hLne : ((ratingsAfter votes).filter (fun r => r.movie_id == m)).isEmpty = false := by
      obtain ⟨a, ha⟩ := List.exists_mem_of_ne_nil _ husers
      have := (hmemiff a).mpr ha
      rw [List.mem_map] at this
      obtain ⟨r, hr, _⟩ := this
      rcases h : (ratingsAfter votes).filter (fun r => r.movie_id == m) with _ | _
      · rw [h] at hr
        exact absurd hr (List.not_mem_nil _)
      · rw [h]
        rfl
    unfold avgStars
    rw [hLne, hsum, hlen]
    rfl

/-- C6 (witness): user 1 rates movie 7 twice (2 then 4) and user 2 rates it
5; the single (1,7) row holds the latest vote 4 and the average is the mean
of the two users' latest votes. -/
theorem ratings_upsert_latest_and_average_witness :
    lastVote [⟨1, 7, 2⟩, ⟨1, 7, 4⟩, ⟨2, 7, 5⟩] 1 7 = some 4 ∧
    (rateFold [⟨1, 7, 2⟩, ⟨1, 7, 4⟩, ⟨2, 7, 5⟩] startupDB).ratings.filter
      (fun r => r.user_id == 1 && r.movie_id == 7) = [⟨1, 7, 4⟩] ∧
    usersRated [⟨1, 7, 2⟩, ⟨1, 7, 4⟩, ⟨2, 7, 5⟩] 7 ≠ [] ∧
    avgStars (rateFold [⟨1, 7, 2⟩, ⟨1, 7, 4⟩, ⟨2, 7, 5⟩] startupDB).ratings 7 =
      some (((((usersRated [⟨1, 7, 2⟩, ⟨1, 7, 4⟩, ⟨2, 7, 5⟩] 7).map
          (fun u => (lastVote [⟨1, 7, 2⟩, ⟨1, 7, 4⟩, ⟨2, 7, 5⟩] u 7).getD 0)).sum : ℤ) : ℚ) /
        (((usersRated [⟨1, 7, 2⟩, ⟨1, 7, 4⟩, ⟨2, 7, 5⟩] 7).length : ℕ) : ℚ)) :=
  ⟨by decide,
    (ratings_upsert_latest_and_average [⟨1, 7, 2⟩, ⟨1, 7, 4⟩, ⟨2, 7, 5⟩]).1 1 7 4 (by decide),
    by decide,
    (ratings_upsert_latest_and_average [⟨1, 7, 2⟩, ⟨1, 7, 4⟩, ⟨2, 7, 5⟩]).2 7 (by decide)⟩
